import Mathlib

/-!
Verification development for the `iris` message-transmission framework
(`src/iris/*.py`): a shallow embedding of the message model, the FIFO
message queue, the translator pass, and the sequential UDP engine,
together with theorems settling the specified properties against it.

Python exception classes are embedded as values of one error type `Err`;
fallible Python code is embedded as `Except Err`-valued functions.  Name
resolution is modelled exactly as Python performs it, per module: a name
bound in the module where the expression runs is embedded by its value,
and a read of any name unbound there is embedded as the `NameError` Python
raises at that program point - whether the name is a mistyped local
(`op_name`, `msg`, `listen_endpoint`, `new_message`), a class declared in
`iris/errors.py` but never imported into the raising module
(`EngineStopError`, `MessageError`), or a name defined nowhere in the
project (`Message`, `OperationAddError`, `EngineShutdownError`,
`function`).  An expression whose evaluation itself raises
(`str(host, str(port))`) is embedded by the error it raises.
-/

namespace Iris

/-- Error values the embedded code can produce: exception classes declared
in `iris/errors.py`, the class name `EngineSendError` that `_send_payload`
raises though it is declared nowhere (kept as an abstract fault value, see
`engineSendStep`), and the Python runtime errors (`TypeError`,
`NameError`, `NotImplementedError`) that slips in the source raise. -/
inductive Err where
  | messageInitError
  | messageEncodingError
  | messageDecodingError
  | messageQueueError
  | engineInitError
  | engineEndpointError
  | engineStartError
  | engineStopError
  | engineRunError
  | engineSendError
  | translatorRegError
  | translatorDeregError
  | typeError
  | nameError
  | notImplementedError
  deriving DecidableEq, Repr

/-- A host argument as `utils.is_valid_address` observes it: its text, whether
`socket.gethostbyname` resolves it, and whether `ipaddress.ip_address`
parses it.  The two Booleans record the outcome of those external calls,
which is all the validator inspects. -/
structure Host where
  name : String
  resolvable : Bool
  ipLiteral : Bool
  deriving DecidableEq, Repr

/-- Validator `utils.is_valid_address` (utils.py 12-33): rejects any port outside the
open interval `0 < port < 65535`, then accepts if the host resolves as a
hostname or parses as an IP literal. -/
def is_valid_address (host : Host) (port : Nat) : Bool :=
  if ¬ (0 < port ∧ port < 65535) then false
  else if host.resolvable then true
  else if host.ipLiteral then true
  else false

/-- A Python `str`: a finite sequence of code points, each below `0x110000`
(lone surrogates `0xD800`-`0xDFFF` are representable in a `str`). -/
abbrev PyStr := List Nat

/-- A Python `bytes` value: a finite sequence of byte values. -/
abbrev PyBytes := List Nat

/-- Mode constant `BaseMessage.NONBINARY` (message.py). -/
def NONBINARY : Nat := 0

/-- Mode constant `BaseMessage.BINARY` (message.py). -/
def BINARY : Nat := 1

/-- A message payload is either a text (`str`) value or a raw `bytes`
value, mirroring the two `TextMessage` initialization paths. -/
inductive Payload where
  | text (s : PyStr)
  | binary (b : PyBytes)
  deriving DecidableEq, Repr

/-- Python truthiness: `payload` is falsy exactly when the string or byte sequence
is empty. -/
def Payload.isFalsy : Payload → Bool
  | .text s => s.isEmpty
  | .binary b => b.isEmpty

/-- A message value of the text-message hierarchy: payload, the
`(host, port)` address, and the mode attribute - the fields the
`TextMessage` initializers set (message.py 104-117) and the shape every
other component (queues, engine, translator) handles messages by. -/
structure Msg where
  payload : Payload
  host : Host
  port : Nat
  mode : Nat
  deriving DecidableEq, Repr

/-- Constructor `BaseMessage.__init__` (message.py 40-49), the only
`__init__` in the message hierarchy.  When the address is invalid, the
source builds the error text with `str(host, str(port))` (message.py 42):
two-argument `str` demands a bytes-like first argument, so that expression
raises `TypeError` before the announced `MessageInitError` can be raised.
With a valid address, an empty payload raises `MessageInitError`.
Otherwise the constructor dispatches to `self._init_binary` or
`self._init_nonbinary` - but `TextMessage` does not inherit `BaseMessage`
and no class in the project combines `BaseMessage.__init__` with the
`TextMessage` initializers (message.py 104-117), so on the only class
carrying this constructor the dispatch hits the `BaseMessage` hooks
(message.py 51-55), which raise `NotImplementedError`: the public
constructor can never yield a message. -/
def messageInit (payload : Payload) (host : Host) (port : Nat) : Except Err Msg :=
  if ¬ is_valid_address host port then .error .typeError
  else if payload.isFalsy then .error .messageInitError
  else match payload with
    | .binary _ => .error .notImplementedError
    | .text _ => .error .notImplementedError

/-- State of a `MessageQueue` (message_queue.py): the `_messages` list,
head at the front.  The embedding is monomorphic in `Msg`, so the
`isinstance(message, self.msg_class)` guard of `add_message` holds for
every value it can be applied to. -/
structure MessageQueue where
  messages : List Msg
  deriving DecidableEq, Repr

/-- Method `MessageQueue.get_message` (message_queue.py 31-37): returns `None` when
the list is empty, else pops and returns the front element.  Total - it
never blocks and never raises. -/
def get_message (q : MessageQueue) : Option Msg × MessageQueue :=
  match q.messages with
  | [] => (none, q)
  | m :: rest => (some m, ⟨rest⟩)

/-- Method `MessageQueue.add_message` (message_queue.py 39-48): appends at the
tail (the `isinstance` guard is satisfied by every `Msg`, see
`MessageQueue`). -/
def add_message (q : MessageQueue) (m : Msg) : MessageQueue :=
  ⟨q.messages ++ [m]⟩

/-- A sequence of `add_message` calls, in order. -/
def enqueueAll (q : MessageQueue) (ms : List Msg) : MessageQueue :=
  ms.foldl add_message q

/-- Repeatedly calling `get_message`, bounded by the given fuel. -/
def drainGo : Nat → MessageQueue → List Msg
  | 0, _ => []
  | n + 1, q =>
    match get_message q with
    | (none, _) => []
    | (some m, q') => m :: drainGo n q'

/-- The sequence of messages obtained by calling `get_message` until it
returns the empty signal. -/
def drain (q : MessageQueue) : List Msg :=
  drainGo q.messages.length q

/-- Transition `TextMessage.to_binary` (message.py 67-84): its guard is
the comparison `message.mode == Message.NONBINARY` (message.py 72), but no
name `Message` exists anywhere in the project - message.py defines only
`BaseMessage` and `TextMessage`, and the `from iris.message import Message`
in iris.py would itself fail - so every call raises `NameError` before any
mode check or encoding is reached. -/
def to_binary (message : Msg) : Except Err Msg :=
  .error .nameError

/-- Transition `TextMessage.from_binary` (message.py 86-102): its guard is
the comparison `message.mode == Message.BINARY` (message.py 91), reading
the same nonexistent `Message` name, so every call raises `NameError`
before any mode check or decoding is reached. -/
def from_binary (message : Msg) : Except Err Msg :=
  .error .nameError

/-- Engine lifecycle states (engine.py 55-58). -/
inductive EngStatus where
  | created
  | running
  | stopped
  | shutdown
  deriving DecidableEq, Repr

/-- Observable state of a `SequentialUDPEngine`: lifecycle status, the
`_run_flag`, and whether each endpoint has been closed. -/
structure SeqEngine where
  status : EngStatus
  runFlag : Bool
  listenClosed : Bool
  sendClosed : Bool
  deriving DecidableEq, Repr

/-- Entry of `SequentialUDPEngine._run` (engine.py 197-213): demands the
`_run_flag` (else `EngineRunError`) and sets the status to `RUNNING`; the
loop body then repeats until the flag is cleared. -/
def engineRun (e : SeqEngine) : Except Err SeqEngine :=
  if e.runFlag then .ok { e with status := .running }
  else .error .engineRunError

/-- Method `SequentialUDPEngine.start` (engine.py 185-195): from `CREATED` or
`STOPPED` it sets `_run_flag` and invokes `_run`; otherwise it raises
`EngineStartError`. -/
def engineStart (e : SeqEngine) : Except Err SeqEngine :=
  if e.status = .created ∨ e.status = .stopped then engineRun { e with runFlag := true }
  else .error .engineStartError

/-- Exit of the loop in `_run` (engine.py 207-211): once the loop observes a
cleared `_run_flag` it stops and the status becomes `STOPPED`. -/
def engineLoopExit (e : SeqEngine) : SeqEngine :=
  if e.runFlag then e else { e with status := .stopped }

/-- Method `SequentialUDPEngine.stop` (engine.py 215-224): only legal from
`RUNNING`; clears `_run_flag` and waits until the loop has observably
reached `STOPPED`, which the embedding collapses into the loop-exit
transition.  From any other status the source executes
`raise EngineStopError(...)`, but `EngineStopError` - though declared in
`iris/errors.py` - is not in the import list of engine.py (lines 45-47),
so the raise statement itself raises `NameError` at the unbound name. -/
def engineStop (e : SeqEngine) : Except Err SeqEngine :=
  if e.status = .running then .ok (engineLoopExit { e with runFlag := false })
  else .error .nameError

/-- Method `SequentialUDPEngine.shutdown` (engine.py 226-237): auto-stops first
when `RUNNING`; then, from `STOPPED` or `CREATED`, closes both endpoints
and moves to the terminal `SHUTDOWN` status.  Otherwise the source
executes `raise EngineShutdownError(...)`, a class defined nowhere in the
project, so that branch raises `NameError`. -/
def engineShutdown (e : SeqEngine) : Except Err SeqEngine :=
  (if e.status = .running then engineStop e else .ok e).bind fun e' =>
    if e'.status = .stopped ∨ e'.status = .created then
      .ok { e' with listenClosed := true, sendClosed := true, status := .shutdown }
    else .error .nameError

/-- A network endpoint argument as `BaseUDPEngine._check_endpoint` observes
it: whether it is a `socket.socket` instance, its socket type, and its
blocking flag (mutated by `_configure_listen_endpoint`). -/
structure Endpoint where
  isSocket : Bool
  sockType : Nat
  blocking : Bool
  deriving DecidableEq, Repr

/-- Constant `socket.SOCK_DGRAM`. -/
def SOCK_DGRAM : Nat := 2

/-- Constant `socket.SOCK_STREAM`. -/
def SOCK_STREAM : Nat := 1

/-- Check `BaseUDPEngine._check_endpoint` (engine.py 145-152): the endpoint must
be a socket instance of type `SOCK_DGRAM`, else `EngineEndpointError`. -/
def check_endpoint (e : Endpoint) : Except Err Unit :=
  if ¬ e.isSocket then .error .engineEndpointError
  else if ¬ e.sockType = SOCK_DGRAM then .error .engineEndpointError
  else .ok ()

/-- The attributes `BaseUDPEngine.__init__` sets on the object, each
`none` until the corresponding assignment runs; used to observe partial
mutation when construction fails. -/
structure EngineAttrs where
  listenEndp : Option Endpoint
  sendEndp : Option Endpoint
  status : Option EngStatus
  deriving DecidableEq, Repr

/-- Constructor `BaseUDPEngine.__init__` (engine.py 88-116) as run by
`SequentialUDPEngine`, returning the outcome together with the attribute
record.  `_set_listen_endp` (119-133) checks the listen endpoint (an
`EngineEndpointError` is wrapped into `EngineInitError` by `__init__`),
applies `_configure_listen_endpoint` (239-241, `setblocking(False)`) and
assigns `_listen_endp`.  `__init__` then calls `_set_send_endp` (135-143),
whose body checks `self._check_endpoint(listen_endpoint)`: `listen_endpoint`
is an unbound local name there (the parameter is `send_endpoint`), so the
call raises `NameError`, which is not an `EngineEndpointError` and escapes
`__init__` un-wrapped; the message-destination, message-source and status
assignments (106-116) are never reached.  (The `def __init__` signature
itself, with the non-default `inc_dest` after `send_endp=None`, is a
Python `SyntaxError`; the embedding models the evident intent of an
optional send endpoint.) -/
def engineInit (listen : Endpoint) (send : Option Endpoint) :
    Except Err Unit × EngineAttrs :=
  let attrs0 : EngineAttrs := ⟨none, none, none⟩
  match check_endpoint listen with
  | .error _ => (.error .engineInitError, attrs0)
  | .ok _ =>
    let listenConfigured := { listen with blocking := false }
    let attrs1 := { attrs0 with listenEndp := some listenConfigured }
    match send with
    | some _ => (.error .nameError, attrs1)
    | none => (.error .nameError, attrs1)

/-- Outcome of the `recvfrom` call in `_receive_data` (engine.py 289): a
datagram of at most 1500 bytes with its sender address, or
`BlockingIOError` when no data is available on the non-blocking socket. -/
inductive RecvOutcome where
  | wouldBlock
  | datagram (payload : PyBytes) (host : Host) (port : Nat)
  deriving DecidableEq, Repr

/-- Method `SequentialUDPEngine._receive_data` (engine.py 287-291): on
`BlockingIOError` it returns `(None, None)`; on a successful `recvfrom`
the function body has no `return` statement, so it falls off the end and
returns Python `None` (embedded as the outer `none`). -/
def receive_data (r : RecvOutcome) : Option (Option PyBytes × Option (Host × Nat)) :=
  match r with
  | .wouldBlock => some (none, none)
  | .datagram _ _ _ => none

/-- Method `SequentialUDPEngine._receive_message` (engine.py 276-285):
`payload, addr = self._receive_data()` unpacks the returned value, and
unpacking Python `None` raises `TypeError`; when a pair is returned, a
falsy payload makes `if payload:` fail and the function returns `None`.
(Were the truthy-payload branch ever reached, the call
`msg_class(payload=payload, addr=addr)` against
`BaseMessage.__init__(self, payload, host, port)` would itself raise
`TypeError` for the unexpected keyword `addr`, uncaught by the
`except MessageInitError` clause.) -/
def receive_message (r : RecvOutcome) : Except Err (Option Msg) :=
  match receive_data r with
  | none => .error .typeError
  | some (payloadOpt, _addrOpt) =>
    match payloadOpt with
    | none => .ok none
    | some p => if p.isEmpty then .ok none else .error .typeError

/-- Method `SequentialUDPEngine._receive` (engine.py 269-274): a `None` result
leaves the inbound destination untouched; a truthy message would be added
via `self._inc_dest.add_message(new_message)`, but `new_message` is an
unbound local name in `_receive` (the value was bound inside
`_receive_message`), so that branch raises `NameError`. -/
def engineReceive (r : RecvOutcome) (dst : MessageQueue) : Except Err MessageQueue :=
  match receive_message r with
  | .error e => .error e
  | .ok none => .ok dst
  | .ok (some _) => .error .nameError

/-- Method `SequentialUDPEngine._send` (engine.py 244-250): pulls at most one
message from the outbound source; absence is a no-op.  The handling of a
present message is abstracted by its outcome `sendResult`, and no branch
of `_send` contains an error: the handler `except EngineSendError as e:
raise e` re-raises (the `# TODO - log here` comment marks the unwritten
containment), so whatever the attempt produced escapes `_send`.  In the
source the escaping exception is in fact always a `NameError` - the body
of `_send_message` (engine.py 254) reads the unbound local `msg` (its
parameter is `message`), and `EngineSendError` is declared nowhere, so
both the raises in `_send_payload` and the except clause itself fail at an
unbound name; the theorems below therefore hold for every error value
`sendResult` can be instantiated with, `NameError` included. -/
def engineSendStep (src : MessageQueue) (sendResult : Msg → Except Err Unit) :
    Except Err MessageQueue :=
  let (msg, src') := get_message src
  match msg with
  | none => .ok src'
  | some m =>
    match sendResult m with
    | .ok _ => .ok src'
    | .error e => .error e

/-- One iteration of the `while self._run_flag` loop in
`SequentialUDPEngine._run` (engine.py 207-209): `self._send()` then
`self._receive()`, with no exception handler around either, so any error
raised by a step propagates out of the loop and `_run` itself. -/
def engineRunIteration (src : MessageQueue) (sendResult : Msg → Except Err Unit)
    (r : RecvOutcome) (dst : MessageQueue) : Except Err (MessageQueue × MessageQueue) :=
  match engineSendStep src sendResult with
  | .error e => .error e
  | .ok src' =>
    match engineReceive r dst with
    | .error e => .error e
    | .ok dst' => .ok (src', dst')

/-- One step, for one registered operation, inside `Translator._run`
(translator.py 106-112):

    message = self.operations[op][0].get_message()
    message_processed = self.operations[op][2]()
    self.operations[op][1].add_message(message_processed)

The stored callable is invoked with *zero* arguments, so the pulled
`message` is never passed to it; `callResult` abstracts what that
zero-argument call does (for a transform defined with one required
parameter it raises `TypeError`; only a nullary callable returns a value).
Whatever it returns is deposited unconditionally - also when the source
was empty and `message` is `None`.  No branch contains an error: the
`except MessageError` clause (113-114) re-raises (`raise e  # TODO`), and
in the source `MessageError` is itself a name never imported into
translator.py, so matching any exception against it raises `NameError` -
the exception escaping the pass is then a `NameError` whichever error the
body produced.  The embedding propagates the abstracted outcome of the
call unchanged, so the escape (and with it the refutation of containment)
holds for every error value `callResult` is instantiated with, `NameError`
included. -/
def translatorOpStep (src dst : MessageQueue) (callResult : Unit → Except Err Msg) :
    Except Err (MessageQueue × MessageQueue) :=
  let (_message, src') := get_message src
  match callResult () with
  | .error e => .error e
  | .ok processed => .ok (src', add_message dst processed)

/-- Method `Translator._add_operation` (translator.py 79-84): inserts under an
unregistered key; under an already-registered key it raises
`OperationAddError`, a name defined nowhere in the project, so the `raise`
statement itself raises `NameError` and the registry is left unchanged.
The registry is embedded as an association list in insertion order. -/
def add_operation (ops : List (String × Nat)) (key : String) (v : Nat) :
    Except Err (List (String × Nat)) :=
  if (ops.filter (fun p => p.1 = key)).isEmpty then .ok (ops ++ [(key, v)])
  else .error .nameError

/-- Method `Translator.deregister_operation` (translator.py 86-91): the membership
test reads `op_name`, an unbound local name (the parameter is `op_key`),
so every call raises `NameError` before the registry is consulted - a
registered key is never removed and the announced `TranslatorDeregError`
is never reached. -/
def deregister_operation (ops : List (String × Nat)) (key : String) :
    Except Err (List (String × Nat)) :=
  .error .nameError

/-- Concrete fixture: a resolvable hostname. -/
def localhost : Host := ⟨"localhost", true, false⟩

/-- Concrete fixture: a host that both resolves and parses as an IP
literal. -/
def localIp : Host := ⟨"127.0.0.1", true, true⟩

/-- Concrete fixture: a nonbinary text message with payload `"ping"`. -/
def pingMsg : Msg := ⟨.text [112, 105, 110, 103], localIp, 9999, NONBINARY⟩

/-- Concrete fixture: a UDP socket endpoint. -/
def udpSock : Endpoint := ⟨true, SOCK_DGRAM, true⟩

/-- Concrete fixture: a TCP (stream, hence non-datagram) socket endpoint. -/
def tcpSock : Endpoint := ⟨true, SOCK_STREAM, true⟩

theorem enqueueAll_messages (l : List Msg) (ms : List Msg) :
    (enqueueAll ⟨l⟩ ms).messages = l ++ ms := by
  induction ms generalizing l with
  | nil => simp [enqueueAll]
  | cons m ms ih =>
    simp only [enqueueAll, List.foldl_cons] at *
    rw [show add_message ⟨l⟩ m = ⟨l ++ [m]⟩ from rfl, ih]
    simp

theorem drainGo_self (l : List Msg) : drainGo l.length ⟨l⟩ = l := by
  induction l with
  | nil => rfl
  | cons m rest ih => simp only [List.length_cons, drainGo, get_message, ih]

/-- Claim C1 (code_bug): the claim states that a pass of the running
Translator loop deposits into the destination of an operation only if a message
was actually present in the source, after applying the transform to the
pulled message.  The code (translator.py 106-112) instead calls the stored
transform with zero arguments and passes its result to `add_message`
unconditionally.  First conjunct: with an *empty* source (and a nullary
callable standing for the zero-argument call), the destination still
receives a deposit.  Second conjunct: with a message present and a unary
transform (whose zero-argument call raises `TypeError`), nothing is
deposited, the pulled message is dropped, and the error escapes the
pass. -/
theorem C1_translator_pass_deposit :
    translatorOpStep ⟨[]⟩ ⟨[]⟩ (fun _ => .ok pingMsg) = .ok (⟨[]⟩, ⟨[pingMsg]⟩) ∧
    translatorOpStep ⟨[pingMsg]⟩ ⟨[]⟩ (fun _ => .error .typeError) = .error .typeError :=
  ⟨rfl, rfl⟩

/-- Claim C2 (code_bug): the claim states per-message failures are
contained at the loop iteration and never halt the owning activity.  In
the code, `SequentialUDPEngine._send` re-raises the caught `EngineSendError`
(engine.py 249-250, `raise e  # TODO - log here`) and `Translator._run`
re-raises the caught `MessageError` (translator.py 113-114, `raise e  # TODO`),
so the error escapes the send step, escapes the unguarded `_run` loop
iteration, and a transform failure escapes the translator pass. -/
theorem C2_per_message_errors_propagate :
    engineSendStep ⟨[pingMsg]⟩ (fun _ => .error .engineSendError) = .error .engineSendError ∧
    engineRunIteration ⟨[pingMsg]⟩ (fun _ => .error .engineSendError) .wouldBlock ⟨[]⟩ =
      .error .engineSendError ∧
    translatorOpStep ⟨[pingMsg]⟩ ⟨[]⟩ (fun _ => .error .messageEncodingError) =
      .error .messageEncodingError :=
  ⟨rfl, rfl, rfl⟩

/-- Claim C3 (code_bug): the claim states that when no data is available
the receive step returns immediately without error and without changing
the inbound destination (first conjunct: this half holds), and that a
successfully read datagram becomes a message of the configured kind
handed to the destination.  In the code, `_receive_data` (engine.py
287-291) has no `return` on its success path, so it returns `None`
(second conjunct), and the unpacking of that `None` in `_receive_message`
raises `TypeError` (third conjunct) - a received datagram is never
delivered. -/
theorem C3_receive_success_path_broken :
    engineReceive .wouldBlock ⟨[]⟩ = .ok ⟨[]⟩ ∧
    receive_data (.datagram [104, 105] localIp 5000) = none ∧
    engineReceive (.datagram [104, 105] localIp 5000) ⟨[]⟩ = .error .typeError :=
  ⟨rfl, rfl, rfl⟩

/-- Claim C4 (code_bug): the transition *structure* of the claimed state
machine is exactly that of the code - `start` succeeds exactly from
CREATED or STOPPED and yields RUNNING, failing with `EngineStartError`
(a class engine.py does import) otherwise; `stop` succeeds exactly from
RUNNING and its result is already STOPPED; `shutdown` auto-stops when
RUNNING, closes both endpoints and reaches the terminal SHUTDOWN from
CREATED, STOPPED or RUNNING; and `start` from SHUTDOWN fails.  But the
claimed failure class of `stop` is wrong of the code: `EngineStopError`
is not imported into engine.py and `EngineShutdownError` is defined
nowhere, so a `stop` from a wrong state (and a `shutdown` from SHUTDOWN)
raises `NameError` - the last conjunct states the divergence at the
concrete failing input, a stop from CREATED. -/
theorem C4_engine_lifecycle_errors :
    (∀ st rf lc sc, engineStart ⟨st, rf, lc, sc⟩ =
      if st = .created ∨ st = .stopped then .ok ⟨.running, true, lc, sc⟩
      else .error .engineStartError) ∧
    (∀ st rf lc sc, engineStop ⟨st, rf, lc, sc⟩ =
      if st = .running then .ok ⟨.stopped, false, lc, sc⟩
      else .error .nameError) ∧
    (∀ st rf lc sc, engineShutdown ⟨st, rf, lc, sc⟩ =
      if st = .shutdown then .error .nameError
      else .ok ⟨.shutdown, if st = .running then false else rf, true, true⟩) ∧
    (∀ rf lc sc, engineStart ⟨.shutdown, rf, lc, sc⟩ = .error .engineStartError) ∧
    engineStop ⟨.created, false, false, false⟩ ≠ .error .engineStopError := by
  refine ⟨?_, ?_, ?_, ?_, by simp [engineStop]⟩
  · intro st rf lc sc
    cases st <;> simp [engineStart, engineRun]
  · intro st rf lc sc
    cases st <;> simp [engineStop, engineLoopExit]
  · intro st rf lc sc
    cases st <;> simp [engineShutdown, engineStop, engineLoopExit, Except.bind]
  · intro rf lc sc
    simp [engineStart]

/-- Claim C5 (confirmed): for every sequence of `add_message` calls on a
`MessageQueue` starting empty, successive `get_message` calls return the
messages in exactly the order they were enqueued (FIFO), and `get_message`
on an empty queue returns the explicit empty signal `None`; both
operations are total functions of the queue state, so neither blocks nor
raises. -/
theorem C5_queue_fifo (ms : List Msg) :
    drain (enqueueAll ⟨[]⟩ ms) = ms ∧ get_message ⟨[]⟩ = (none, ⟨[]⟩) := by
  constructor
  · have h : (enqueueAll ⟨[]⟩ ms).messages = ms := by
      rw [enqueueAll_messages]
      simp
    unfold drain
    rw [show enqueueAll ⟨[]⟩ ms = ⟨ms⟩ from by cases henq : enqueueAll ⟨[]⟩ ms; simp_all]
    exact drainGo_self ms
  · rfl

/-- Claim C6 (code_bug): the claim states that registering under an
already-registered key fails with `TranslatorRegError` and deregistering
an unknown key fails with `TranslatorDeregError`, leaving the registry
unchanged.  In the code, the duplicate-key branch of `_add_operation`
raises `OperationAddError` - a name defined nowhere - so Python raises
`NameError` instead (first conjunct; fresh keys register fine, second
conjunct), and `deregister_operation` tests the unbound local `op_name`,
so *every* call raises `NameError` - for unknown keys (third conjunct)
and registered keys alike (fourth conjunct). -/
theorem C6_registry_error_classes :
    add_operation [("k", 0)] "k" 1 = .error .nameError ∧
    add_operation [] "k" 0 = .ok [("k", 0)] ∧
    deregister_operation [("k", 0)] "missing" = .error .nameError ∧
    deregister_operation [("k", 0)] "k" = .error .nameError :=
  ⟨rfl, rfl, rfl, rfl⟩

/-- Claim C7 (code_bug): the claimed round-trip law can never even be
exercised on the source.  The guards of `to_binary` and `from_binary`
read the nonexistent name `Message`, so on any message value - here one
with the text payload `"ping"` in NONBINARY mode - both transitions and
hence the composed round trip raise `NameError` instead of reproducing
the payload (first two conjuncts); and the public constructor cannot
produce a message in the first place, because no class combines
`BaseMessage.__init__` with the `TextMessage` initializers - with a valid
address and a nonempty text payload the dispatch hits the `BaseMessage`
hook, which raises `NotImplementedError` (third conjunct). -/
theorem C7_roundtrip_unreachable :
    to_binary pingMsg = .error .nameError ∧
    (to_binary pingMsg).bind from_binary = .error .nameError ∧
    messageInit (.text [104, 105]) localhost 9000 = .error .notImplementedError :=
  ⟨rfl, rfl, rfl⟩

/-- Claim C8 (code_bug): the claim states that construction with a
non-datagram endpoint fails with `EngineInitError` and performs no partial
mutation.  A non-datagram *listen* endpoint indeed yields
`EngineInitError` with no attribute set (first conjunct).  But
`_set_send_endp` checks the unbound local name `listen_endpoint`
(engine.py 139), so once the listen endpoint is accepted the constructor
raises `NameError` - not `EngineInitError` - with the `_listen_endp`
attribute already set (partial mutation), both when the send endpoint is
a non-datagram socket (second conjunct) and even when both endpoints are
valid UDP sockets (third conjunct). -/
theorem C8_engine_init_not_atomic :
    engineInit tcpSock none = (.error .engineInitError, ⟨none, none, none⟩) ∧
    engineInit udpSock (some tcpSock) =
      (.error .nameError, ⟨some ⟨true, SOCK_DGRAM, false⟩, none, none⟩) ∧
    engineInit udpSock (some udpSock) =
      (.error .nameError, ⟨some ⟨true, SOCK_DGRAM, false⟩, none, none⟩) :=
  ⟨rfl, rfl, rfl⟩

/-- Claim C9 (code_bug): the claim states that for every host and port an
empty payload fails with `MessageInitError`.  With a valid address this
holds, for empty text and empty bytes (first two conjuncts); but with an
invalid address (port 0) the error-message expression of the constructor,
`str(host, str(port))` (message.py 42) raises `TypeError` first, so the
empty payload is not rejected with `MessageInitError` there (third
conjunct). -/
theorem C9_empty_payload_rejection :
    messageInit (.text []) localIp 9000 = .error .messageInitError ∧
    messageInit (.binary []) localIp 9000 = .error .messageInitError ∧
    messageInit (.text []) localIp 0 = .error .typeError :=
  ⟨rfl, rfl, rfl⟩

/-- Claim C10 (code_bug): the validator `is_valid_address` indeed requires
`0 < port < 65535`, so ports 0 and 65535 are invalid while 1 and 65534 are
valid (first four conjuncts); but constructing a Message with such a port
raises `TypeError` - from the broken error-message expression
`str(host, str(port))` - rather than the claimed `MessageInitError`
(last two conjuncts). -/
theorem C10_port_bounds :
    is_valid_address localIp 0 = false ∧
    is_valid_address localIp 65535 = false ∧
    is_valid_address localIp 65534 = true ∧
    is_valid_address localIp 1 = true ∧
    messageInit (.text [104]) localIp 0 = .error .typeError ∧
    messageInit (.text [104]) localIp 65535 = .error .typeError :=
  ⟨rfl, rfl, rfl, rfl, rfl, rfl⟩

end Iris
